import Mathlib

/-!
Shallow embedding of `src/texture.rs` from the `gltf` crate: the texture /
sampler / image view layer over a parsed glTF document.

Conventions of the embedding:
* Rust references become plain Lean values (the layer is read-only, so value
  semantics is observationally faithful).
* `usize` / `u32` indices become `Nat` (`Index<T>::value()` is the identity
  in the model).
* A Rust panic (`Option::unwrap` / `Checked::unwrap` failure) is modelled by
  `none` in an `Option`-valued result: `none` means the code aborts.
* Types that live outside `src/` (the raw `json` records, the `Gltf` root,
  the `image` and `extensions` modules) are modelled from the spec and are
  marked as such in their doc comments.
-/

namespace gltf

/-- Modelled from the spec: magnification filter, a small closed enumeration
(the `json` module defining `MagFilter` is outside `src/`). -/
inductive MagFilter where
  | Nearest
  | Linear
deriving DecidableEq

/-- Modelled from the spec: minification filter, a small closed enumeration
(the `json` module defining `MinFilter` is outside `src/`). -/
inductive MinFilter where
  | Nearest
  | Linear
  | NearestMipmapNearest
  | LinearMipmapNearest
  | NearestMipmapLinear
  | LinearMipmapLinear
deriving DecidableEq

/-- Modelled from the spec: wrapping mode, a small closed enumeration
(the `json` module defining `WrappingMode` is outside `src/`). -/
inductive WrappingMode where
  | ClampToEdge
  | MirroredRepeat
  | Repeat
deriving DecidableEq

/-- Modelled from the spec: the raw layer wraps enumerated fields in a
validation marker (`Checked<T>`); invalid enumeration values are a
parser-stage concern that this layer unwraps unconditionally. -/
inductive Checked (α : Type) where
  | valid (v : α)
  | invalid
deriving DecidableEq

/-- `Checked::unwrap`: returns the validated value, panics on `invalid`
(panic modelled as `none`). -/
def Checked.unwrap {α : Type} : Checked α → Option α
  | .valid v => some v
  | .invalid => none

/-- Modelled from the spec: opaque free-form application metadata
(`json::Extras`), passed through unexamined by this layer. -/
abbrev Extras := Option String

/-- Modelled from the spec: opaque raw extension payload; this layer only
holds a reference to it, never interprets it. -/
structure ExtensionPayload where
  raw : Option String
deriving DecidableEq

namespace json.texture

/-- Modelled from the spec: raw sampler record (the `json` module is outside
`src/`): optional filtering modes, mandatory wrapping modes for two axes,
optional name, extension payload and free-form metadata. -/
structure Sampler where
  mag_filter : Option (Checked MagFilter)
  min_filter : Option (Checked MinFilter)
  name : Option String
  wrap_s : Checked WrappingMode
  wrap_t : Checked WrappingMode
  extensions : ExtensionPayload
  extras : Extras
deriving DecidableEq

/-- Modelled from the spec: `Default::default()` for the raw sampler record
uses only the format's documented default filtering/wrapping behaviour: no
filters, `Repeat` wrapping on both axes, no name, empty payloads. -/
def Sampler.default : Sampler :=
  { mag_filter := none
    min_filter := none
    name := none
    wrap_s := .valid .Repeat
    wrap_t := .valid .Repeat
    extensions := ⟨none⟩
    extras := none }

/-- Modelled from the spec: raw texture record (the `json` module is outside
`src/`): an optional sampler reference (absent means default sampler), a
mandatory image reference, optional name, extension payload, metadata. -/
structure Texture where
  name : Option String
  sampler : Option Nat
  source : Nat
  extensions : ExtensionPayload
  extras : Extras
deriving DecidableEq

/-- Modelled from the spec: raw texture-usage record (the `json` module is
outside `src/`): a mandatory texture reference plus the texture-coordinate
attribute-set index, already defaulted to a concrete value upstream. -/
structure Info where
  index : Nat
  tex_coord : Nat
  extensions : ExtensionPayload
  extras : Extras
deriving DecidableEq

end json.texture

namespace json.image

/-- Modelled from the spec: raw image record, treated as opaque by the
texture layer (`image.rs` and the `json` image module are outside `src/`). -/
structure Image where
  uri : Option String
deriving DecidableEq

end json.image

/-- Modelled from the spec: the Document Root (`Gltf`) owns flat,
order-preserving sequences of raw records per entity kind, addressable by
integer index (`gltf.rs` is outside `src/`). -/
structure Gltf where
  samplers : List json.texture.Sampler
  textures : List json.texture.Texture
  images : List json.image.Image
deriving DecidableEq

/-- The `lazy_static` `DEFAULT_SAMPLER`: the single canonical
default-initialized raw sampler record. -/
def DEFAULT_SAMPLER : json.texture.Sampler := json.texture.Sampler.default

/-- Texture sampler properties for filtering and wrapping modes
(`Sampler<'a>` view): parent root, optional JSON index (`none` when the
default sampler), and the raw record. -/
structure Sampler where
  gltf : Gltf
  index : Option Nat
  json : json.texture.Sampler
deriving DecidableEq

/-- A texture and its sampler (`Texture<'a>` view): parent root, JSON index,
and the raw record. -/
structure Texture where
  gltf : Gltf
  index : Nat
  json : json.texture.Texture
deriving DecidableEq

/-- Modelled from the spec: `Image<'a>` view (`image.rs` is outside `src/`):
a document-backed view with a plain positional index and the raw record. -/
structure Image where
  gltf : Gltf
  index : Nat
  json : json.image.Image
deriving DecidableEq

/-- A reference to a `Texture` (`Info<'a>` view): the parent `Texture` view
held by value plus the raw usage record. -/
structure Info where
  texture : Texture
  json : json.texture.Info
deriving DecidableEq

namespace extensions.texture

/-- Modelled from the spec: extension shim for a sampler (`extensions`
module is outside `src/`): root reference plus raw extension payload. -/
structure Sampler where
  gltf : Gltf
  json : ExtensionPayload
deriving DecidableEq

/-- Constructs the sampler extension shim. -/
def Sampler.new (gltf : Gltf) (json : ExtensionPayload) : Sampler :=
  { gltf := gltf, json := json }

/-- Modelled from the spec: extension shim for a texture. -/
structure Texture where
  gltf : Gltf
  json : ExtensionPayload
deriving DecidableEq

/-- Constructs the texture extension shim. -/
def Texture.new (gltf : Gltf) (json : ExtensionPayload) : Texture :=
  { gltf := gltf, json := json }

/-- Modelled from the spec: extension shim for a texture usage, holding a
cloned `Texture` view so extension schemas may reference texture fields. -/
structure Info where
  texture : gltf.Texture
  json : ExtensionPayload
deriving DecidableEq

/-- Constructs the usage-scoped extension shim. -/
def Info.new (texture : gltf.Texture) (json : ExtensionPayload) : Info :=
  { texture := texture, json := json }

end extensions.texture

/-- `Sampler::new`: constructs a document-backed `Sampler` view carrying
`Some(index)`. -/
def Sampler.new (gltf : Gltf) (index : Nat) (json : json.texture.Sampler) :
    Sampler :=
  { gltf := gltf, index := some index, json := json }

/-- `Sampler::default`: constructs the default `Sampler` view over the
`DEFAULT_SAMPLER` singleton, carrying no index. -/
def Sampler.default (gltf : Gltf) : Sampler :=
  { gltf := gltf, index := none, json := DEFAULT_SAMPLER }

/-- `Sampler::as_json`: returns the internal JSON item. -/
def Sampler.as_json (s : Sampler) : json.texture.Sampler := s.json

/-- Models Rust `Option::map` applied to a closure that may panic: the
outer `Option` is the panic channel, the inner one the mapped value. -/
def optionMapPanic {α β : Type} (f : α → Option β) :
    Option α → Option (Option β)
  | none => some none
  | some a => (f a).map some

/-- `Sampler::mag_filter`: `self.json.mag_filter.map(|filter| filter.unwrap())`. -/
def Sampler.mag_filter (s : Sampler) : Option (Option MagFilter) :=
  optionMapPanic Checked.unwrap s.json.mag_filter

/-- `Sampler::min_filter`: `self.json.min_filter.map(|filter| filter.unwrap())`. -/
def Sampler.min_filter (s : Sampler) : Option (Option MinFilter) :=
  optionMapPanic Checked.unwrap s.json.min_filter

/-- `Sampler::wrap_s`: `self.json.wrap_s.unwrap()`. -/
def Sampler.wrap_s (s : Sampler) : Option WrappingMode :=
  Checked.unwrap s.json.wrap_s

/-- `Sampler::wrap_t`: `self.json.wrap_t.unwrap()`. -/
def Sampler.wrap_t (s : Sampler) : Option WrappingMode :=
  Checked.unwrap s.json.wrap_t

/-- `Sampler::extensions`: builds the sampler extension shim over this
entity's raw extension payload. -/
def Sampler.extensions (s : Sampler) : extensions.texture.Sampler :=
  extensions.texture.Sampler.new s.gltf s.json.extensions

/-- `Sampler::extras`: returns the free-form metadata by reference. -/
def Sampler.extras (s : Sampler) : Extras := s.json.extras

/-- `Texture::new`: constructs a document-backed `Texture` view. -/
def Texture.new (gltf : Gltf) (index : Nat) (json : json.texture.Texture) :
    Texture :=
  { gltf := gltf, index := index, json := json }

/-- `Texture::as_json`: returns the internal JSON item. -/
def Texture.as_json (t : Texture) : json.texture.Texture := t.json

/-- Modelled from the spec: `gltf.samplers().nth(i)` iterates the root's
sampler collection yielding document-backed views in positional order
(`gltf.rs` is outside `src/`); `none` means the index is out of range. -/
def Gltf.samplersNth (g : Gltf) (i : Nat) : Option Sampler :=
  (g.samplers[i]?).map (fun r => Sampler.new g i r)

/-- Modelled from the spec: `gltf.images().nth(i)` iterates the root's image
collection yielding document-backed views in positional order. -/
def Gltf.imagesNth (g : Gltf) (i : Nat) : Option Image :=
  (g.images[i]?).map (fun r => { gltf := g, index := i, json := r })

/-- `Texture::sampler`: resolves the optional sampler reference:
`self.json.sampler.as_ref().map(|index| self.gltf.samplers().nth(index.value()).unwrap()).unwrap_or_else(|| Sampler::default(self.gltf))`.
The inner `unwrap` panic (out-of-range index) is the outer `none`. -/
def Texture.sampler (t : Texture) : Option Sampler :=
  match t.json.sampler with
  | some idx => Gltf.samplersNth t.gltf idx
  | none => some (Sampler.default t.gltf)

/-- `Texture::source`: resolves the mandatory image reference:
`self.gltf.images().nth(self.json.source.value()).unwrap()`.
The `unwrap` panic (out-of-range index) is the outer `none`. -/
def Texture.source (t : Texture) : Option Image :=
  Gltf.imagesNth t.gltf t.json.source

/-- `Texture::extensions`: builds the texture extension shim. -/
def Texture.extensions (t : Texture) : extensions.texture.Texture :=
  extensions.texture.Texture.new t.gltf t.json.extensions

/-- `Texture::extras`: returns the free-form metadata by reference. -/
def Texture.extras (t : Texture) : Extras := t.json.extras

/-- `Info::new`: constructs a reference to a `Texture` from an
already-constructed `Texture` view and the raw usage record. -/
def Info.new (texture : Texture) (json : json.texture.Info) : Info :=
  { texture := texture, json := json }

/-- `Info::as_json`: returns the internal JSON item. -/
def Info.as_json (i : Info) : json.texture.Info := i.json

/-- `Info::tex_coord`: the set index of the texture's `TEXCOORD` attribute,
read directly from the raw usage record. -/
def Info.tex_coord (i : Info) : Nat := i.json.tex_coord

/-- `Info::extensions`: builds the usage-scoped extension shim over a clone
of the held `Texture` view. -/
def Info.extensions (i : Info) : extensions.texture.Info :=
  extensions.texture.Info.new i.texture i.json.extensions

/-- `Info::extras`: the usage record's own metadata. -/
def Info.extras (i : Info) : Extras := i.json.extras

/-- `Deref for Info`: the `Deref` target is the held `Texture` view, through
which all texture-level operations are transparently delegated. -/
def Info.deref (i : Info) : Texture := i.texture

/-- A concrete raw sampler record used by the witnesses: Nearest/Linear
filters, Repeat and ClampToEdge wrapping. -/
def sampleRawSampler : json.texture.Sampler :=
  { mag_filter := some (.valid .Nearest)
    min_filter := some (.valid .Linear)
    name := none
    wrap_s := .valid .Repeat
    wrap_t := .valid .ClampToEdge
    extensions := ⟨none⟩
    extras := none }

/-- A concrete raw image record used by the witnesses. -/
def sampleRawImage : json.image.Image := { uri := some "image.png" }

/-- A concrete raw texture record referencing sampler 0 and image 0. -/
def sampleRawTexture : json.texture.Texture :=
  { name := none
    sampler := some 0
    source := 0
    extensions := ⟨none⟩
    extras := none }

/-- A concrete raw texture record with no sampler reference. -/
def sampleRawTextureNoSampler : json.texture.Texture :=
  { name := none
    sampler := none
    source := 0
    extensions := ⟨none⟩
    extras := none }

/-- A concrete well-formed document root used by the witnesses. -/
def sampleGltf : Gltf :=
  { samplers := [sampleRawSampler]
    textures := [sampleRawTexture, sampleRawTextureNoSampler]
    images := [sampleRawImage] }

/-- A concrete raw usage record binding attribute set 2 to texture 0. -/
def sampleRawInfo : json.texture.Info :=
  { index := 0
    tex_coord := 2
    extensions := ⟨none⟩
    extras := none }

/-- A corrupt raw texture record whose sampler and image references are out
of range for `corruptGltf`. -/
def corruptRawTexture : json.texture.Texture :=
  { name := none
    sampler := some 3
    source := 5
    extensions := ⟨none⟩
    extras := none }

/-- A corrupt document root: one texture, but empty sampler and image
collections, so the texture's references do not resolve. -/
def corruptGltf : Gltf :=
  { samplers := []
    textures := [corruptRawTexture]
    images := [] }

/-- C1: on any Texture view whose raw record has no sampler reference,
`sampler()` returns the default Sampler view: its `index()` is `none`, its
`mag_filter`/`min_filter`/`wrap_s`/`wrap_t` accessors return the documented
format defaults (no filters, Repeat wrapping), and its raw record is the
default-initialized `DEFAULT_SAMPLER`. -/
theorem C1_sampler_absent_returns_default (t : Texture)
    (h : t.json.sampler = none) :
    Texture.sampler t = some (Sampler.default t.gltf) ∧
    (Sampler.default t.gltf).index = none ∧
    Sampler.mag_filter (Sampler.default t.gltf) = some none ∧
    Sampler.min_filter (Sampler.default t.gltf) = some none ∧
    Sampler.wrap_s (Sampler.default t.gltf) = some WrappingMode.Repeat ∧
    Sampler.wrap_t (Sampler.default t.gltf) = some WrappingMode.Repeat ∧
    Sampler.as_json (Sampler.default t.gltf) = DEFAULT_SAMPLER := by
  refine ⟨?_, rfl, rfl, rfl, rfl, rfl, rfl⟩
  unfold Texture.sampler
  rw [h]

/-- C1 witness: the sampler-free texture of the sample document. -/
theorem C1_witness :
    (Texture.new sampleGltf 1 sampleRawTextureNoSampler).json.sampler
      = none ∧
    Texture.sampler (Texture.new sampleGltf 1 sampleRawTextureNoSampler)
      = some (Sampler.default sampleGltf) :=
  ⟨rfl, (C1_sampler_absent_returns_default
    (Texture.new sampleGltf 1 sampleRawTextureNoSampler) rfl).1⟩

/-- C2: on any Texture view whose raw record holds a sampler reference `i`
that resolves to raw record `r` in the root's sampler collection,
`sampler()` returns `Sampler::new(root, i, r)`: a view whose `index()` is
`some i` and whose raw record is exactly `r`, untransformed. -/
theorem C2_sampler_present_resolves (t : Texture) (i : Nat)
    (r : json.texture.Sampler) (h1 : t.json.sampler = some i)
    (h2 : t.gltf.samplers[i]? = some r) :
    Texture.sampler t = some (Sampler.new t.gltf i r) ∧
    (Sampler.new t.gltf i r).index = some i ∧
    Sampler.as_json (Sampler.new t.gltf i r) = r := by
  refine ⟨?_, rfl, rfl⟩
  simp [Texture.sampler, Gltf.samplersNth, h1, h2]

/-- C2 witness: texture 0 of the sample document references sampler 0. -/
theorem C2_witness :
    (Texture.new sampleGltf 0 sampleRawTexture).json.sampler = some 0 ∧
    sampleGltf.samplers[0]? = some sampleRawSampler ∧
    Texture.sampler (Texture.new sampleGltf 0 sampleRawTexture)
      = some (Sampler.new sampleGltf 0 sampleRawSampler) :=
  ⟨rfl, rfl, (C2_sampler_present_resolves
    (Texture.new sampleGltf 0 sampleRawTexture) 0 sampleRawSampler
    rfl rfl).1⟩

/-- C3: on any Texture view whose mandatory raw `source` reference resolves
to raw record `r`, `source()` returns the document-backed Image view at that
position: its `index()` (a plain, non-optional `Nat`) equals the raw
reference. `Texture.source` has no default-substitution branch at all, so no
synthetic default image can ever be produced. -/
theorem C3_source_mandatory (t : Texture) (r : json.image.Image)
    (h : t.gltf.images[t.json.source]? = some r) :
    Texture.source t
      = some { gltf := t.gltf, index := t.json.source, json := r } ∧
    (Image.index { gltf := t.gltf, index := t.json.source, json := r })
      = t.json.source := by
  refine ⟨?_, rfl⟩
  unfold Texture.source Gltf.imagesNth
  rw [h]
  rfl

/-- C3 witness: texture 0 of the sample document references image 0. -/
theorem C3_witness :
    sampleGltf.images[(Texture.new sampleGltf 0 sampleRawTexture).json.source]?
      = some sampleRawImage ∧
    Texture.source (Texture.new sampleGltf 0 sampleRawTexture)
      = some { gltf := sampleGltf, index := 0, json := sampleRawImage } :=
  ⟨rfl, (C3_source_mandatory
    (Texture.new sampleGltf 0 sampleRawTexture) sampleRawImage rfl).1⟩

/-- C4: for every Info view built by `Info::new`, the `Deref` target is
exactly the wrapped Texture view, so every delegated texture-level
operation (`index`, `sampler`, `source`, the texture's own `extensions` and
`extras`) yields a result identical to invoking it directly on the wrapped
Texture view. -/
theorem C4_info_delegation (t : Texture) (j : json.texture.Info) :
    Info.deref (Info.new t j) = t ∧
    (Info.deref (Info.new t j)).index = t.index ∧
    Texture.sampler (Info.deref (Info.new t j)) = Texture.sampler t ∧
    Texture.source (Info.deref (Info.new t j)) = Texture.source t ∧
    Texture.extensions (Info.deref (Info.new t j)) = Texture.extensions t ∧
    Texture.extras (Info.deref (Info.new t j)) = Texture.extras t :=
  ⟨rfl, rfl, rfl, rfl, rfl, rfl⟩

/-- C5 counterexample: on the corrupt document (out-of-range sampler and
image references), both resolvers reach the unconditional `unwrap` failure
(modelled as `none`, i.e. a panic): no reportable corruption error is ever
produced, contradicting the claim's reportable-error path. -/
theorem C5_counterexample :
    Texture.sampler (Texture.new corruptGltf 0 corruptRawTexture) = none ∧
    Texture.source (Texture.new corruptGltf 0 corruptRawTexture) = none :=
  ⟨rfl, rfl⟩

/-- C5 (amended): when a sampler or image index reference is out of range of
the corresponding document-root collection, `Texture::sampler` and
`Texture::source` hit an unconditional fatal `unwrap` (a panic, modelled as
`none`); the resolvers expose no reportable-error channel. -/
theorem C5_out_of_range_is_fatal_unwrap (t : Texture) (i : Nat)
    (h1 : t.json.sampler = some i) (h2 : t.gltf.samplers[i]? = none)
    (h3 : t.gltf.images[t.json.source]? = none) :
    Texture.sampler t = none ∧ Texture.source t = none := by
  constructor
  · simp [Texture.sampler, Gltf.samplersNth, h1, h2]
  · simp [Texture.source, Gltf.imagesNth, h3]

/-- C5 amended-claim witness: the corrupt document again. -/
theorem C5_witness :
    (Texture.new corruptGltf 0 corruptRawTexture).json.sampler = some 3 ∧
    Texture.sampler (Texture.new corruptGltf 0 corruptRawTexture) = none :=
  ⟨rfl, (C5_out_of_range_is_fatal_unwrap
    (Texture.new corruptGltf 0 corruptRawTexture) 3 rfl rfl rfl).1⟩

/-- C6: one canonical default raw sampler record: `Sampler::default` for any
document root, called any number of times, yields a view over the very same
`DEFAULT_SAMPLER` record; all observations agree by value. -/
theorem C6_default_sampler_singleton (g g' : Gltf) :
    Sampler.as_json (Sampler.default g) = DEFAULT_SAMPLER ∧
    Sampler.as_json (Sampler.default g)
      = Sampler.as_json (Sampler.default g') :=
  ⟨rfl, rfl⟩

/-- C7: `tex_coord()` on an Info view returns the raw usage record's stored
`tex_coord` value unchanged; the view synthesizes no default of its own. -/
theorem C7_tex_coord_unchanged (t : Texture) (j : json.texture.Info) :
    Info.tex_coord (Info.new t j) = j.tex_coord :=
  rfl

/-- C8: `wrap_s()` and `wrap_t()` unwrap the raw wrapping-mode fields with
no fallback path; under the parser's guarantee that these mandatory fields
hold validated values, the unwrap failure branch is unreachable and the
accessors return exactly the stored values. -/
theorem C8_wrap_accessors_total (s : Sampler) (w w' : WrappingMode)
    (hs : s.json.wrap_s = Checked.valid w)
    (ht : s.json.wrap_t = Checked.valid w') :
    Sampler.wrap_s s = some w ∧ Sampler.wrap_t s = some w' := by
  unfold Sampler.wrap_s Sampler.wrap_t
  rw [hs, ht]
  exact ⟨rfl, rfl⟩

/-- C8 witness: the sample document's sampler view. -/
theorem C8_witness :
    (Sampler.new sampleGltf 0 sampleRawSampler).json.wrap_s
      = Checked.valid WrappingMode.Repeat ∧
    Sampler.wrap_s (Sampler.new sampleGltf 0 sampleRawSampler)
      = some WrappingMode.Repeat :=
  ⟨rfl, (C8_wrap_accessors_total (Sampler.new sampleGltf 0 sampleRawSampler)
    WrappingMode.Repeat WrappingMode.ClampToEdge rfl rfl).1⟩

/-- C9: the view layer never copies or transforms the raw record it wraps:
`as_json` after `new` returns exactly the record passed in, for Sampler,
Texture and Info views alike. -/
theorem C9_as_json_roundtrip (g : Gltf) (i : Nat)
    (rs : json.texture.Sampler) (rt : json.texture.Texture) (t : Texture)
    (ri : json.texture.Info) :
    Sampler.as_json (Sampler.new g i rs) = rs ∧
    Texture.as_json (Texture.new g i rt) = rt ∧
    Info.as_json (Info.new t ri) = ri :=
  ⟨rfl, rfl, rfl⟩

/-- C10: every Texture view is document-backed: `Texture::new` stores the
positional index as a plain, non-optional `Nat` and `index()` returns
exactly it (there is no default/synthetic Texture constructor in the
embedding, mirroring the source). -/
theorem C10_texture_index (g : Gltf) (i : Nat) (r : json.texture.Texture) :
    (Texture.new g i r).index = i :=
  rfl

end gltf
